import Mathlib

/-!
Shallow embedding of the terraform-provider-aidbox repository:
the Aidbox RPC client (internal/aidbox/client.go) and the license
resource adapter plus provider configuration
(internal/provider/license_resource.go, provider Configure).

External effects (the HTTP transport and the YAML codec from
gopkg.in/yaml.v3) are modelled as oracles supplied in an environment;
every control-flow decision of the repository's own code is embedded
faithfully.
-/

namespace Aidbox

/-- True iff the second character list is an initial segment of the first. -/
def charsStartWith : List Char → List Char → Bool
  | _, [] => true
  | [], _ :: _ => false
  | c :: cs, p :: ps => c == p && charsStartWith cs ps

/-- True iff the second character list occurs contiguously in the first. -/
def charsContain : List Char → List Char → Bool
  | [], pat => charsStartWith [] pat
  | c :: cs, pat => charsStartWith (c :: cs) pat || charsContain cs pat

/-- Models Go strings.Contains: true iff pat occurs as a substring of s
(the empty pattern occurs in every string). -/
def strContains (s pat : String) : Bool :=
  charsContain s.data pat.data

/-- Creator struct from client.go. -/
structure Creator where
  id : String
  resourceType : String
deriving DecidableEq, Repr, Inhabited

/-- Project struct from client.go. -/
structure Project where
  id : String
  resourceType : String
deriving DecidableEq, Repr, Inhabited

/-- Info struct from client.go. -/
structure Info where
  hosting : String
deriving DecidableEq, Repr, Inhabited

/-- Meta struct from client.go. -/
structure Meta where
  lastUpdated : String
  createdAt : String
  versionId : String
deriving DecidableEq, Repr, Inhabited

/-- Additional struct from client.go. -/
structure Additional where
  expirationDays : Int
  boxUrl : Option String
deriving DecidableEq, Repr, Inhabited

/-- License struct from client.go. -/
structure License where
  id : String
  name : String
  product : String
  type : String
  expiration : String
  status : String
  maxInstances : Int
  creator : Creator
  project : Project
  offline : Bool
  created : String
  meta : Meta
  issuer : String
  info : Info
  additional : Additional
deriving DecidableEq, Repr, Inhabited

/-- LicenseResponse struct from client.go: the License and JWT token. -/
structure LicenseResponse where
  license : License
  jwt : String
deriving DecidableEq, Repr, Inhabited

/-- The Go zero value LicenseResponse\x7b\x7d returned on the error paths. -/
def emptyLicenseResponse : LicenseResponse :=
  { license :=
      { id := "", name := "", product := "", type := "", expiration := ""
        status := "", maxInstances := 0
        creator := { id := "", resourceType := "" }
        project := { id := "", resourceType := "" }
        offline := false, created := ""
        meta := { lastUpdated := "", createdAt := "", versionId := "" }
        issuer := "", info := { hosting := "" }
        additional := { expirationDays := 0, boxUrl := none } }
    jwt := "" }

/-- The Result field of APIResponse from client.go. -/
structure APIResult where
  license : License
  jwt : String
deriving DecidableEq, Repr, Inhabited

/-- APIResponse struct from client.go: maps the YAML response envelope. -/
structure APIResponse where
  result : APIResult
deriving DecidableEq, Repr, Inhabited

/-- HTTPClient struct from client.go (the transport handle itself lives in
the environment oracle). -/
structure HTTPClient where
  endpoint : String
  token : String
deriving DecidableEq, Repr, Inhabited

/-- NewClient from client.go. -/
def NewClient (endpoint token : String) : HTTPClient :=
  { endpoint := endpoint, token := token }

/-- What the world can do with one HTTP exchange attempted by makeAPICall:
each constructor is one of the failure points of the Go function, in
source order, or a completed HTTP response (statusCode is resp.StatusCode,
status is the textual resp.Status line, body the fully read body). -/
inductive TransportOutcome where
  | marshalError (msg : String)
  | requestError (msg : String)
  | doError (msg : String)
  | readError (msg : String)
  | response (statusCode : Nat) (status : String) (body : String)
deriving DecidableEq, Repr, Inhabited

/-- http.StatusOK. -/
def statusOK : Nat := 200

/-- The oracles for the effects outside the repository: the HTTP transport
(keyed by the method and params the code sends) and yaml.Unmarshal into
the APIResponse shape (error text, or the decoded envelope). -/
structure Env where
  transport : String → List (String × String) → TransportOutcome
  yamlUnmarshal : String → Except String APIResponse

/-- makeAPICall from client.go: serializes the request, POSTs it, reads the
body, and accepts only http.StatusOK, any other status becoming an error
carrying the status line and the body verbatim. -/
def makeAPICall (env : Env) (method : String) (params : List (String × String)) :
    Except String String :=
  match env.transport method params with
  | .marshalError msg => .error ("failed to create YAML request body: " ++ msg)
  | .requestError msg => .error ("failed to create HTTP request: " ++ msg)
  | .doError msg => .error ("API call failed: " ++ msg)
  | .readError msg => .error ("failed to read response body: " ++ msg)
  | .response statusCode status body =>
      if statusCode != statusOK then
        .error ("API response error: " ++ status ++ "; Body: " ++ body)
      else
        .ok body

/-- parseYAMLResponse from client.go. -/
def parseYAMLResponse (yamlUnmarshal : String → Except String APIResponse)
    (bodyBytes : String) : Except String LicenseResponse :=
  match yamlUnmarshal bodyBytes with
  | .error e => .error ("failed to parse YAML response: " ++ e)
  | .ok apiResp => .ok { license := apiResp.result.license, jwt := apiResp.result.jwt }

/-- CreateLicense from client.go. -/
def CreateLicense (env : Env) (c : HTTPClient) (name product licenseType : String) :
    Except String LicenseResponse :=
  let params := [("token", c.token), ("name", name), ("product", product),
                 ("type", licenseType)]
  match makeAPICall env "portal.portal/issue-license" params with
  | .error err => .error err
  | .ok bodyBytes => parseYAMLResponse env.yamlUnmarshal bodyBytes

/-- The remote error phrase GetLicense matches on. -/
def notMemberPhrase : String := "You are not a member of the project"

/-- GetLicense from client.go: the not-a-member error text is reinterpreted
as the license not existing (empty response, no error). -/
def GetLicense (env : Env) (c : HTTPClient) (licenseID : String) :
    Except String LicenseResponse :=
  let params := [("token", c.token), ("id", licenseID)]
  match makeAPICall env "portal.portal/get-license" params with
  | .error err =>
      if strContains err notMemberPhrase then
        .ok emptyLicenseResponse
      else
        .error err
  | .ok bodyBytes => parseYAMLResponse env.yamlUnmarshal bodyBytes

/-- DeleteLicense from client.go: discards the body, returns only the error. -/
def DeleteLicense (env : Env) (c : HTTPClient) (licenseID : String) :
    Option String :=
  match makeAPICall env "portal.portal/remove-license"
      [("token", c.token), ("id", licenseID)] with
  | .error err => some err
  | .ok _ => none

end Aidbox

namespace Provider

open Aidbox

/-- The terraform-plugin-framework types.String value: null, unknown, or a
known string. -/
inductive TFString where
  | null
  | unknown
  | value (s : String)
deriving DecidableEq, Repr, Inhabited

/-- IsNull from the framework string type. -/
def TFString.isNull : TFString → Bool
  | .null => true
  | _ => false

/-- IsUnknown from the framework string type. -/
def TFString.isUnknown : TFString → Bool
  | .unknown => true
  | _ => false

/-- ValueString from the framework string type: the known value, or the
empty string for null and unknown. -/
def TFString.valueString : TFString → String
  | .value s => s
  | _ => ""

/-- types.Int64 value. -/
inductive TFInt where
  | null
  | unknown
  | value (n : Int)
deriving DecidableEq, Repr, Inhabited

/-- types.Bool value. -/
inductive TFBool where
  | null
  | unknown
  | value (b : Bool)
deriving DecidableEq, Repr, Inhabited

/-- LicenseResourceModel from license_resource.go: the typed resource
record with its seventeen attributes. -/
structure LicenseResourceModel where
  id : TFString
  name : TFString
  product : TFString
  type : TFString
  expiration : TFString
  status : TFString
  maxInstances : TFInt
  creatorId : TFString
  projectId : TFString
  offline : TFBool
  created : TFString
  metaLastUpdated : TFString
  metaCreatedAt : TFString
  metaVersionId : TFString
  issuer : TFString
  infoHosting : TFString
  jwt : TFString
deriving DecidableEq, Repr, Inhabited

/-- mapModelFromAPIResponse from license_resource.go: overwrites every
model field from the API response. -/
def mapModelFromAPIResponse (model : LicenseResourceModel)
    (apiResp : LicenseResponse) : LicenseResourceModel :=
  { model with
    id := .value apiResp.license.id
    name := .value apiResp.license.name
    product := .value apiResp.license.product
    type := .value apiResp.license.type
    expiration := .value apiResp.license.expiration
    status := .value apiResp.license.status
    maxInstances := .value apiResp.license.maxInstances
    creatorId := .value apiResp.license.creator.id
    projectId := .value apiResp.license.project.id
    offline := .value apiResp.license.offline
    created := .value apiResp.license.created
    metaLastUpdated := .value apiResp.license.meta.lastUpdated
    metaCreatedAt := .value apiResp.license.meta.createdAt
    metaVersionId := .value apiResp.license.meta.versionId
    issuer := .value apiResp.license.issuer
    infoHosting := .value apiResp.license.info.hosting
    jwt := .value apiResp.jwt }

/-- The Client interface the adapter is injected with (satisfied by the
real HTTPClient and by test doubles): one oracle per method. -/
structure ClientOracle where
  createLicense : String → String → String → Except String LicenseResponse
  getLicense : String → Except String LicenseResponse
  deleteLicense : String → Option String

/-- One call issued to the injected client, recorded for the frame
conditions (which operations contact the remote system). -/
inductive ClientCall where
  | create (name product licenseType : String)
  | get (licenseID : String)
  | remove (licenseID : String)
deriving DecidableEq, Repr

/-- An AddError diagnostic: summary and detail. -/
structure Diag where
  summary : String
  detail : String
deriving DecidableEq, Repr, Inhabited

/-- What a Read can do to tracked state: report an error diagnostic and
keep the prior state, store a model, or remove the resource from state
(the framework's RemoveResource, available to Read but never invoked by
this code). -/
inductive ReadOutcome where
  | errorDiag (d : Diag)
  | setState (m : LicenseResourceModel)
  | removeResource
deriving DecidableEq, Repr

/-- Outcome of Create or Update: an error diagnostic or a stored model. -/
inductive WriteOutcome where
  | errorDiag (d : Diag)
  | setState (m : LicenseResourceModel)
deriving DecidableEq, Repr

/-- Outcome of Delete: an error diagnostic, or the resource removed. -/
inductive DeleteOutcome where
  | errorDiag (d : Diag)
  | removed
deriving DecidableEq, Repr

/-- Create from license_resource.go, given the plan the framework decoded.
Returns the outcome and the list of client calls issued. -/
def Create (client : ClientOracle) (plan : LicenseResourceModel) :
    WriteOutcome × List ClientCall :=
  let call := ClientCall.create plan.name.valueString plan.product.valueString
      plan.type.valueString
  match client.createLicense plan.name.valueString plan.product.valueString
      plan.type.valueString with
  | .error err => (.errorDiag { summary := "API Call Failed", detail := err }, [call])
  | .ok apiResp => (.setState (mapModelFromAPIResponse plan apiResp), [call])

/-- Read from license_resource.go, given the prior state the framework
decoded. Returns the outcome and the list of client calls issued. -/
def Read (client : ClientOracle) (state : LicenseResourceModel) :
    ReadOutcome × List ClientCall :=
  if state.id.isUnknown || state.id.isNull || state.id.valueString == "" then
    (.errorDiag { summary := "No ID Present"
                  detail := "An ID must be present to read the License" }, [])
  else
    match client.getLicense state.id.valueString with
    | .error err =>
        (.errorDiag { summary := "Failed to Fetch License"
                      detail := "Unable to fetch license: " ++ err },
         [.get state.id.valueString])
    | .ok apiResp =>
        (.setState (mapModelFromAPIResponse state apiResp),
         [.get state.id.valueString])

/-- Update from license_resource.go: persists the plan unchanged and never
contacts the client. -/
def Update (client : ClientOracle) (plan : LicenseResourceModel) :
    WriteOutcome × List ClientCall :=
  (.setState plan, [])

/-- Delete from license_resource.go. Returns the outcome and the list of
client calls issued. -/
def Delete (client : ClientOracle) (state : LicenseResourceModel) :
    DeleteOutcome × List ClientCall :=
  if state.id.isNull || state.id.isUnknown || state.id.valueString == "" then
    (.errorDiag { summary := "No ID Found"
                  detail := "Cannot delete the License without an ID." }, [])
  else
    match client.deleteLicense state.id.valueString with
    | some err =>
        (.errorDiag { summary := "Failed to Delete License"
                      detail := "Error while trying to delete the License with ID "
                        ++ state.id.valueString ++ ": " ++ err },
         [.remove state.id.valueString])
    | none => (.removed, [.remove state.id.valueString])

/-- ProviderData from the provider source: resolved endpoint, token, and
the constructed client value. -/
structure ProviderData where
  endpoint : String
  token : String
  client : HTTPClient
deriving DecidableEq, Repr, Inhabited

/-- The fixed default endpoint from the provider Configure. -/
def defaultEndpoint : String := "https://aidbox.app/rpc"

/-- The diagnostic Configure raises when no token can be resolved. -/
def noTokenDiag : Diag :=
  { summary := "No API Token Provided"
    detail := "Please provide a 'token' in the provider configuration or through the 'AIDBOX_API_TOKEN' environment variable." }

/-- Configure from the provider source: resolves endpoint and token
(envToken is os.Getenv AIDBOX_API_TOKEN, the empty string when unset) and
either fails with a diagnostic or yields the ProviderData. -/
def Configure (endpoint token : TFString) (envToken : String) :
    Except Diag ProviderData :=
  let endpoint :=
    if endpoint.isNull || endpoint.isUnknown || endpoint.valueString == "" then
      TFString.value defaultEndpoint
    else endpoint
  let tokenResolved :=
    if token.isNull || token.isUnknown || token.valueString == "" then
      if envToken != "" then
        Except.ok (TFString.value envToken)
      else
        Except.error noTokenDiag
    else Except.ok token
  match tokenResolved with
  | .error d => .error d
  | .ok token =>
      .ok { endpoint := endpoint.valueString
            token := token.valueString
            client := NewClient endpoint.valueString token.valueString }

end Provider

namespace Fixtures

open Aidbox Provider

/-- Environment whose transport always yields one fixed HTTP response and
whose decoder always fails (so theorems using it cannot secretly rely on
decoding). -/
def respEnv (statusCode : Nat) (status body : String) : Env :=
  { transport := fun _ _ => .response statusCode status body
    yamlUnmarshal := fun _ => .error "unused decoder" }

/-- A concrete client value. -/
def stubHTTPClient : HTTPClient := NewClient "https://aidbox.app/rpc" "tok"

/-- Injected client double whose Get signals not-found: empty result, no
error (exactly what GetLicense returns on the not-a-member special case). -/
def notFoundClient : ClientOracle :=
  { createLicense := fun _ _ _ => .ok emptyLicenseResponse
    getLicense := fun _ => .ok emptyLicenseResponse
    deleteLicense := fun _ => none }

/-- Resource model with every attribute null. -/
def blankModel : LicenseResourceModel :=
  { id := .null, name := .null, product := .null, type := .null
    expiration := .null, status := .null, maxInstances := .null
    creatorId := .null, projectId := .null, offline := .null, created := .null
    metaLastUpdated := .null, metaCreatedAt := .null, metaVersionId := .null
    issuer := .null, infoHosting := .null, jwt := .null }

/-- A tracked state for an existing license. -/
def trackedState : LicenseResourceModel :=
  { blankModel with
    id := .value "lic-123", name := .value "license-one"
    product := .value "aidbox", type := .value "development" }

/-- A fully populated remote license record. -/
def sampleLicense : License :=
  { id := "lic-123", name := "license-one", product := "aidbox"
    type := "development", expiration := "2027-01-01", status := "active"
    maxInstances := 5
    creator := { id := "user-1", resourceType := "User" }
    project := { id := "proj-1", resourceType := "Project" }
    offline := true, created := "2026-01-01"
    meta := { lastUpdated := "2026-01-02", createdAt := "2026-01-01"
              versionId := "v1" }
    issuer := "aidbox", info := { hosting := "cloud" }
    additional := { expirationDays := 365, boxUrl := none } }

/-- The envelope payload for sampleLicense. -/
def sampleResponse : LicenseResponse :=
  { license := sampleLicense, jwt := "jwt-token" }

/-- Injected client double answering every call with sampleResponse. -/
def sampleClient : ClientOracle :=
  { createLicense := fun _ _ _ => .ok sampleResponse
    getLicense := fun _ => .ok sampleResponse
    deleteLicense := fun _ => none }

/-- Environment whose transport fails at http.Client.Do with an error text
containing the not-a-member phrase. -/
def doErrEnv : Env :=
  { transport := fun _ _ => .doError "proxy: You are not a member of the project"
    yamlUnmarshal := fun _ => .error "unused decoder" }

/-- Environment whose transport fails at request construction with an
error text containing the not-a-member phrase. -/
def reqErrEnv : Env :=
  { transport := fun _ _ => .requestError "url: You are not a member of the project"
    yamlUnmarshal := fun _ => .error "unused decoder" }

/-- Environment delivering a 200 response whose body the decoder rejects. -/
def badYamlEnv : Env :=
  { transport := fun _ _ => .response 200 "200 OK" "not-an-envelope"
    yamlUnmarshal := fun _ => .error "cannot unmarshal" }

end Fixtures

open Aidbox Provider Fixtures

/-- C6: Update never contacts the injected client and stores exactly the
planned data. -/
theorem update_is_inert_passthrough (client : ClientOracle)
    (plan : LicenseResourceModel) :
    Update client plan = (WriteOutcome.setState plan, []) := rfl

/-- C5: a Read or Delete whose stored identifier is null, unknown or the
empty string reports the contract-violation diagnostic and issues no
client call. -/
theorem read_delete_missing_id_fail_fast (client : ClientOracle)
    (state : LicenseResourceModel)
    (h : (state.id.isNull || state.id.isUnknown || state.id.valueString == "") = true) :
    Read client state =
      (.errorDiag { summary := "No ID Present"
                    detail := "An ID must be present to read the License" }, []) ∧
    Delete client state =
      (.errorDiag { summary := "No ID Found"
                    detail := "Cannot delete the License without an ID." }, []) := by
  have h' : (state.id.isUnknown || state.id.isNull || state.id.valueString == "") = true := by
    rcases hs : state.id with _ | _ | s <;>
      simp_all [TFString.isNull, TFString.isUnknown, TFString.valueString]
  exact ⟨by simp [Read, h'], by simp [Delete, h]⟩

/-- C5 witness: on a state whose id is null, Read and Delete fail fast
with no client call. -/
theorem read_delete_missing_id_fail_fast_witness :
    Read sampleClient blankModel =
      (.errorDiag { summary := "No ID Present"
                    detail := "An ID must be present to read the License" }, []) ∧
    Delete sampleClient blankModel =
      (.errorDiag { summary := "No ID Found"
                    detail := "Cannot delete the License without an ID." }, []) :=
  read_delete_missing_id_fail_fast sampleClient blankModel (by decide)

/-- C7: configuration resolution: an absent or empty endpoint resolves to
the fixed public URL; an absent or empty token falls back to the
AIDBOX_API_TOKEN environment value when that is nonempty; when neither is
present Configure fails with the fatal no-token diagnostic. -/
theorem configure_resolution (endpoint token : TFString) (envToken : String) :
    ((endpoint.isNull || endpoint.isUnknown || endpoint.valueString == "") = true →
      ∀ pd, Configure endpoint token envToken = .ok pd → pd.endpoint = defaultEndpoint) ∧
    ((token.isNull || token.isUnknown || token.valueString == "") = true → envToken ≠ "" →
      ∃ pd, Configure endpoint token envToken = .ok pd ∧ pd.token = envToken) ∧
    ((token.isNull || token.isUnknown || token.valueString == "") = true → envToken = "" →
      Configure endpoint token envToken = .error noTokenDiag) := by
  refine ⟨?_, ?_, ?_⟩
  · intro he pd hpd
    simp only [Configure] at hpd
    rw [he] at hpd
    by_cases ht : (token.isNull || token.isUnknown || token.valueString == "") = true
    · rw [ht] at hpd
      by_cases hb : (envToken != "") = true
      · rw [hb] at hpd
        simp [TFString.valueString] at hpd
        rw [← hpd]
      · have hb' : (envToken != "") = false := by simpa using hb
        rw [hb'] at hpd
        simp at hpd
    · have ht' : (token.isNull || token.isUnknown || token.valueString == "") = false := by
        simpa using ht
      rw [ht'] at hpd
      simp [TFString.valueString] at hpd
      rw [← hpd]
  · intro ht hv
    have hb : (envToken != "") = true := by simpa using hv
    by_cases he : (endpoint.isNull || endpoint.isUnknown || endpoint.valueString == "") = true
    · refine ⟨{ endpoint := defaultEndpoint, token := envToken,
                client := NewClient defaultEndpoint envToken }, ?_, rfl⟩
      simp only [Configure]
      rw [he, ht, hb]
      simp [TFString.valueString]
    · have he' : (endpoint.isNull || endpoint.isUnknown || endpoint.valueString == "") = false := by
        simpa using he
      refine ⟨{ endpoint := endpoint.valueString, token := envToken,
                client := NewClient endpoint.valueString envToken }, ?_, rfl⟩
      simp only [Configure]
      rw [he', ht, hb]
      simp [TFString.valueString]
  · intro ht hv
    have hb : (envToken != "") = false := by simp [hv]
    simp only [Configure]
    rw [ht, hb]
    simp

/-- C7 witness: with both endpoint and token null, the endpoint defaults,
the token comes from the environment when set, and configuration fails
when the environment variable is empty too. -/
theorem configure_resolution_witness :
    (∀ pd, Configure .null .null "env-tok" = .ok pd → pd.endpoint = defaultEndpoint) ∧
    (∃ pd, Configure .null .null "env-tok" = .ok pd ∧ pd.token = "env-tok") ∧
    Configure .null .null "" = .error noTokenDiag :=
  ⟨(configure_resolution .null .null "env-tok").1 (by decide),
   (configure_resolution .null .null "env-tok").2.1 (by decide) (by decide),
   (configure_resolution .null .null "").2.2 (by decide) rfl⟩

/-- C2 counterexample: status 201 lies in the 2xx range, yet the shared
request path turns it into a protocol error, so "error iff not 2xx" is
false as stated. -/
theorem makeAPICall_non2xx_counterexample :
    (200 ≤ 201 ∧ 201 < 300) ∧
    makeAPICall (respEnv 201 "201 Created" "req-body") "portal.portal/issue-license"
      [("token", "tok")] =
      .error ("API response error: " ++ "201 Created" ++ "; Body: " ++ "req-body") :=
  ⟨⟨by decide, by decide⟩, rfl⟩

/-- C2 (amended): on the shared request path a delivered HTTP response
yields a protocol error iff its status code differs from 200
(http.StatusOK), and that error's text contains the status line and the
response body verbatim; a status of exactly 200 yields the body with no
error. -/
theorem makeAPICall_protocol_error_iff (env : Env) (method : String)
    (params : List (String × String)) (statusCode : Nat) (status body : String)
    (h : env.transport method params = .response statusCode status body) :
    (statusCode ≠ statusOK →
      ∃ e, makeAPICall env method params = .error e ∧
        (∃ pre post, e = pre ++ status ++ post) ∧
        (∃ pre post, e = pre ++ body ++ post)) ∧
    (statusCode = statusOK → makeAPICall env method params = .ok body) := by
  constructor
  · intro hne
    have hb : (statusCode != statusOK) = true := by simpa using hne
    refine ⟨"API response error: " ++ status ++ "; Body: " ++ body, ?_, ?_, ?_⟩
    · simp [makeAPICall, h, hb]
    · refine ⟨"API response error: ", "; Body: " ++ body, ?_⟩
      simp [String.append_assoc]
    · refine ⟨"API response error: " ++ status ++ "; Body: ", "", ?_⟩
      simp [String.append_empty, String.append_assoc]
  · intro he
    simp [makeAPICall, h, he]

/-- C2 witness: a 404 response produces an error carrying status line and
body, and a 200 response produces the body with no error. -/
theorem makeAPICall_protocol_error_iff_witness :
    (∃ e, makeAPICall (respEnv 404 "404 Not Found" "missing")
        "portal.portal/get-license" [("token", "tok"), ("id", "lic-1")] = .error e ∧
      (∃ pre post, e = pre ++ "404 Not Found" ++ post) ∧
      (∃ pre post, e = pre ++ "missing" ++ post)) ∧
    makeAPICall (respEnv 200 "200 OK" "fine") "portal.portal/get-license"
      [("token", "tok"), ("id", "lic-1")] = .ok "fine" :=
  ⟨(makeAPICall_protocol_error_iff (respEnv 404 "404 Not Found" "missing")
      "portal.portal/get-license" [("token", "tok"), ("id", "lic-1")]
      404 "404 Not Found" "missing" rfl).1 (by decide),
   (makeAPICall_protocol_error_iff (respEnv 200 "200 OK" "fine")
      "portal.portal/get-license" [("token", "tok"), ("id", "lic-1")]
      200 "200 OK" "fine" rfl).2 rfl⟩

/-- C3: when the shared request path errors, GetLicense returns the empty
response with no error exactly when the error text contains the
not-a-member phrase, and propagates the error unchanged otherwise. -/
theorem getLicense_not_member_reinterpreted (env : Env) (c : HTTPClient)
    (licenseID e : String)
    (h : makeAPICall env "portal.portal/get-license"
        [("token", c.token), ("id", licenseID)] = .error e) :
    (strContains e notMemberPhrase = true →
      GetLicense env c licenseID = .ok emptyLicenseResponse) ∧
    (strContains e notMemberPhrase = false →
      GetLicense env c licenseID = .error e) := by
  constructor <;> intro hc <;> simp [GetLicense, h, hc]

/-- C3 witness: a 403 whose body carries the phrase is reinterpreted as
not-found, a plain 500 propagates. -/
theorem getLicense_not_member_reinterpreted_witness :
    GetLicense (respEnv 403 "403 Forbidden" "You are not a member of the project: denied")
      stubHTTPClient "lic-1" = .ok emptyLicenseResponse ∧
    GetLicense (respEnv 500 "500 Internal Server Error" "boom") stubHTTPClient "lic-1" =
      .error ("API response error: " ++ "500 Internal Server Error" ++ "; Body: " ++ "boom") :=
  ⟨(getLicense_not_member_reinterpreted
      (respEnv 403 "403 Forbidden" "You are not a member of the project: denied")
      stubHTTPClient "lic-1"
      ("API response error: " ++ "403 Forbidden" ++ "; Body: " ++
        "You are not a member of the project: denied") rfl).1 (by decide),
   (getLicense_not_member_reinterpreted
      (respEnv 500 "500 Internal Server Error" "boom") stubHTTPClient "lic-1"
      ("API response error: " ++ "500 Internal Server Error" ++ "; Body: " ++ "boom")
      rfl).2 (by decide)⟩

/-- C8: the not-found reinterpretation is pure substring matching on the
error text: a transport failure, a request-construction failure, a
marshalling failure, a body-read failure, or a non-200 protocol error all
become an empty result with no error whenever their text contains the
phrase — the error's kind is never consulted. -/
theorem getLicense_text_match_ignores_error_kind (env : Env) (c : HTTPClient)
    (licenseID : String) :
    (∀ msg, env.transport "portal.portal/get-license"
        [("token", c.token), ("id", licenseID)] = .doError msg →
      strContains ("API call failed: " ++ msg) notMemberPhrase = true →
      GetLicense env c licenseID = .ok emptyLicenseResponse) ∧
    (∀ msg, env.transport "portal.portal/get-license"
        [("token", c.token), ("id", licenseID)] = .requestError msg →
      strContains ("failed to create HTTP request: " ++ msg) notMemberPhrase = true →
      GetLicense env c licenseID = .ok emptyLicenseResponse) ∧
    (∀ msg, env.transport "portal.portal/get-license"
        [("token", c.token), ("id", licenseID)] = .marshalError msg →
      strContains ("failed to create YAML request body: " ++ msg) notMemberPhrase = true →
      GetLicense env c licenseID = .ok emptyLicenseResponse) ∧
    (∀ msg, env.transport "portal.portal/get-license"
        [("token", c.token), ("id", licenseID)] = .readError msg →
      strContains ("failed to read response body: " ++ msg) notMemberPhrase = true →
      GetLicense env c licenseID = .ok emptyLicenseResponse) ∧
    (∀ statusCode status body, env.transport "portal.portal/get-license"
        [("token", c.token), ("id", licenseID)] = .response statusCode status body →
      statusCode ≠ statusOK →
      strContains ("API response error: " ++ status ++ "; Body: " ++ body)
        notMemberPhrase = true →
      GetLicense env c licenseID = .ok emptyLicenseResponse) := by
  refine ⟨?_, ?_, ?_, ?_, ?_⟩
  · intro msg ht hc
    simp [GetLicense, makeAPICall, ht, hc]
  · intro msg ht hc
    simp [GetLicense, makeAPICall, ht, hc]
  · intro msg ht hc
    simp [GetLicense, makeAPICall, ht, hc]
  · intro msg ht hc
    simp [GetLicense, makeAPICall, ht, hc]
  · intro statusCode status body ht hne hc
    have hb : (statusCode != statusOK) = true := by simpa using hne
    simp [GetLicense, makeAPICall, ht, hb, hc]

/-- C8 witness: a transport-dial failure, a request-construction failure
and a 502 protocol error whose texts carry the phrase each yield the empty
result with no error. -/
theorem getLicense_text_match_ignores_error_kind_witness :
    GetLicense doErrEnv stubHTTPClient "lic-1" = .ok emptyLicenseResponse ∧
    GetLicense reqErrEnv stubHTTPClient "lic-1" = .ok emptyLicenseResponse ∧
    GetLicense (respEnv 502 "502 Bad Gateway" "You are not a member of the project")
      stubHTTPClient "lic-1" = .ok emptyLicenseResponse :=
  ⟨(getLicense_text_match_ignores_error_kind doErrEnv stubHTTPClient "lic-1").1
      "proxy: You are not a member of the project" rfl (by decide),
   (getLicense_text_match_ignores_error_kind reqErrEnv stubHTTPClient "lic-1").2.1
      "url: You are not a member of the project" rfl (by decide),
   (getLicense_text_match_ignores_error_kind
      (respEnv 502 "502 Bad Gateway" "You are not a member of the project")
      stubHTTPClient "lic-1").2.2.2.2
      502 "502 Bad Gateway" "You are not a member of the project" rfl
      (by decide) (by decide)⟩

/-- C9: DeleteLicense never decodes the response body: every HTTP 200
response yields no error, for any body and any decoder behaviour. -/
theorem deleteLicense_success_ignores_body (env : Env) (c : HTTPClient)
    (licenseID status body : String)
    (h : env.transport "portal.portal/remove-license"
        [("token", c.token), ("id", licenseID)] = .response 200 status body) :
    DeleteLicense env c licenseID = none := by
  simp [DeleteLicense, makeAPICall, h, statusOK]

/-- C9 witness: a 200 whose body is not valid YAML (and an environment
whose decoder always fails) still deletes without error. -/
theorem deleteLicense_success_ignores_body_witness :
    DeleteLicense (respEnv 200 "200 OK" "definitely not an envelope")
      stubHTTPClient "lic-9" = none :=
  deleteLicense_success_ignores_body (respEnv 200 "200 OK" "definitely not an envelope")
    stubHTTPClient "lic-9" "200 OK" "definitely not an envelope" rfl

/-- C4: when the shared request path delivers a 200 response, CreateLicense
and GetLicense fail with a parse error exactly when the body does not
decode into the expected envelope, and otherwise return the envelope's
license and jwt. -/
theorem create_get_parse_error_iff (env : Env) (c : HTTPClient)
    (name product licenseType licenseID statusC statusG body : String)
    (hc : env.transport "portal.portal/issue-license"
        [("token", c.token), ("name", name), ("product", product),
         ("type", licenseType)] = .response 200 statusC body)
    (hg : env.transport "portal.portal/get-license"
        [("token", c.token), ("id", licenseID)] = .response 200 statusG body) :
    (∀ e, env.yamlUnmarshal body = .error e →
      CreateLicense env c name product licenseType =
        .error ("failed to parse YAML response: " ++ e) ∧
      GetLicense env c licenseID = .error ("failed to parse YAML response: " ++ e)) ∧
    (∀ resp, env.yamlUnmarshal body = .ok resp →
      CreateLicense env c name product licenseType =
        .ok { license := resp.result.license, jwt := resp.result.jwt } ∧
      GetLicense env c licenseID =
        .ok { license := resp.result.license, jwt := resp.result.jwt }) := by
  constructor
  · intro e he
    constructor
    · simp [CreateLicense, makeAPICall, parseYAMLResponse, hc, he, statusOK]
    · simp [GetLicense, makeAPICall, parseYAMLResponse, hg, he, statusOK]
  · intro resp hr
    constructor
    · simp [CreateLicense, makeAPICall, parseYAMLResponse, hc, hr, statusOK]
    · simp [GetLicense, makeAPICall, parseYAMLResponse, hg, hr, statusOK]

/-- C4 witness: a 200 response whose body the decoder rejects makes both
CreateLicense and GetLicense fail with the parse error. -/
theorem create_get_parse_error_iff_witness :
    CreateLicense badYamlEnv stubHTTPClient "license-one" "aidbox" "development" =
      .error ("failed to parse YAML response: " ++ "cannot unmarshal") ∧
    GetLicense badYamlEnv stubHTTPClient "lic-1" =
      .error ("failed to parse YAML response: " ++ "cannot unmarshal") :=
  (create_get_parse_error_iff badYamlEnv stubHTTPClient "license-one" "aidbox"
    "development" "lic-1" "200 OK" "200 OK" "not-an-envelope" rfl rfl).1
    "cannot unmarshal" rfl

/-- C10: on success, Create and Read store exactly the mapped response:
the mapping overwrites all seventeen state fields (the user-supplied name,
product and type included) from the response's license record and JWT, and
its result does not depend on the prior or planned model at all. -/
theorem create_read_overwrite_all_fields (client : ClientOracle)
    (plan state : LicenseResourceModel) (resp : LicenseResponse)
    (hc : client.createLicense plan.name.valueString plan.product.valueString
        plan.type.valueString = .ok resp)
    (hg : client.getLicense state.id.valueString = .ok resp)
    (hid : (state.id.isUnknown || state.id.isNull || state.id.valueString == "") = false) :
    (Create client plan).1 = .setState (mapModelFromAPIResponse plan resp) ∧
    (Read client state).1 = .setState (mapModelFromAPIResponse state resp) ∧
    mapModelFromAPIResponse plan resp = mapModelFromAPIResponse state resp ∧
    mapModelFromAPIResponse plan resp =
      { id := .value resp.license.id, name := .value resp.license.name,
        product := .value resp.license.product, type := .value resp.license.type,
        expiration := .value resp.license.expiration,
        status := .value resp.license.status,
        maxInstances := .value resp.license.maxInstances,
        creatorId := .value resp.license.creator.id,
        projectId := .value resp.license.project.id,
        offline := .value resp.license.offline,
        created := .value resp.license.created,
        metaLastUpdated := .value resp.license.meta.lastUpdated,
        metaCreatedAt := .value resp.license.meta.createdAt,
        metaVersionId := .value resp.license.meta.versionId,
        issuer := .value resp.license.issuer,
        infoHosting := .value resp.license.info.hosting,
        jwt := .value resp.jwt } := by
  refine ⟨?_, ?_, rfl, rfl⟩
  · simp [Create, hc]
  · simp [Read, hid, hg]

/-- C10 witness: with a doubled client answering sampleResponse, Create and
Read on the tracked state store the mapped sample response, whose fields
are exactly those of the response. -/
theorem create_read_overwrite_all_fields_witness :
    (Create sampleClient trackedState).1 =
      .setState (mapModelFromAPIResponse trackedState sampleResponse) ∧
    (Read sampleClient trackedState).1 =
      .setState (mapModelFromAPIResponse trackedState sampleResponse) ∧
    mapModelFromAPIResponse trackedState sampleResponse =
      mapModelFromAPIResponse trackedState sampleResponse ∧
    mapModelFromAPIResponse trackedState sampleResponse =
      { id := .value sampleResponse.license.id,
        name := .value sampleResponse.license.name,
        product := .value sampleResponse.license.product,
        type := .value sampleResponse.license.type,
        expiration := .value sampleResponse.license.expiration,
        status := .value sampleResponse.license.status,
        maxInstances := .value sampleResponse.license.maxInstances,
        creatorId := .value sampleResponse.license.creator.id,
        projectId := .value sampleResponse.license.project.id,
        offline := .value sampleResponse.license.offline,
        created := .value sampleResponse.license.created,
        metaLastUpdated := .value sampleResponse.license.meta.lastUpdated,
        metaCreatedAt := .value sampleResponse.license.meta.createdAt,
        metaVersionId := .value sampleResponse.license.meta.versionId,
        issuer := .value sampleResponse.license.issuer,
        infoHosting := .value sampleResponse.license.info.hosting,
        jwt := .value sampleResponse.jwt } :=
  create_read_overwrite_all_fields sampleClient trackedState trackedState
    sampleResponse rfl rfl (by decide)

/-- C1 (code divergence): when the injected client's Get signals not-found
(empty result, no error), Read stores the mapped empty response — a state
whose id is the empty string — into tracked state instead of removing the
resource from it. -/
theorem read_not_found_stores_empty_state :
    (Read notFoundClient trackedState).1 =
      .setState (mapModelFromAPIResponse trackedState emptyLicenseResponse) ∧
    (Read notFoundClient trackedState).1 ≠ .removeResource ∧
    (mapModelFromAPIResponse trackedState emptyLicenseResponse).id = .value "" := by
  refine ⟨rfl, ?_, rfl⟩
  decide
